import Mathlib

/-!
# Verification of the car-market-price front-end components

Shallow embedding of the JavaScript sources of the repository:

* `src/unnamed/part_000` — the Alpine.js `dataTable` component
  (pagination, client-side filtering, sorting, server-side mode);
* `src/main/static/main/js/car-price-estimator.js` — the cascading
  selector controller and the form validator of the estimator page;
* `src/main/static/main/js/car-assessment.js` — the cascading selector
  controller of the assessment page.

JavaScript values that occur in table records are modelled by `JsVal`
(integral numbers and strings; the records exercised by the program and
the specification carry only these forms).  Machine numbers are modelled
by `Int`/`Nat`; the sources use them only as small exact integers
(page numbers, record counts), where JS float arithmetic is exact.
Network effects (`fetch`) are modelled by passing the decoded outcome as
an explicit argument: `none` for a fetch or JSON-decoding failure,
`some v` for a successfully decoded value.
-/

namespace CarMarket

/-- A JavaScript field value: an (integral) number or a string. -/
inductive JsVal where
  | num (n : Int)
  | str (s : String)
deriving DecidableEq, Repr

/-- A table record: an object, i.e. an ordered association of field
names to values (JS objects have no duplicate keys). -/
abbrev Rec := List (String × JsVal)

/-- `item[key]`: property lookup, `none` for `undefined`. -/
def rlookup (r : Rec) (field : String) : Option JsVal :=
  (r.find? (fun p => p.1 == field)).map Prod.snd

/-- `String(v)` for a defined value. -/
def JsVal.toStr : JsVal → String
  | .num n => toString n
  | .str s => s

/-- `String(v)`, including `String(undefined) = "undefined"`. -/
def jsValToString : Option JsVal → String
  | none => "undefined"
  | some w => w.toStr

/-- Value of a nonempty all-digit character list, `none` otherwise. -/
def parseDigits (l : List Char) : Option Nat :=
  if l ≠ [] ∧ l.all Char.isDigit then
    some (l.foldl (fun a c => a * 10 + (c.toNat - 48)) 0)
  else none

/-- An optionally signed integral numeral, `none` otherwise. -/
def parseIntStr (s : String) : Option Int :=
  match s.toList with
  | '-' :: rest => (parseDigits rest).map (fun n => -(n : Int))
  | l => (parseDigits l).map (fun n => (n : Int))

/-- JS `Number(v)` coercion (as used by `isNaN(v)`), restricted to the
integral value forms that occur: `Number(undefined)` is NaN (`none`),
a number coerces to itself, a string is trimmed and parsed
(`Number("") = 0`); a non-numeral string gives NaN. -/
def jsNumber : Option JsVal → Option Int
  | none => none
  | some (.num n) => some n
  | some (.str s) =>
    let t := s.trim
    if t = "" then some 0 else parseIntStr t

/-- JS `isNaN(v)` (global, coercing). -/
def jsIsNaN (v : Option JsVal) : Bool := (jsNumber v).isNone

/-- Longest leading digit run of a character list with its value. -/
def leadingDigits (l : List Char) : List Char :=
  l.takeWhile Char.isDigit

/-- JS `parseFloat(v)` restricted to integral forms: parses the longest
numeric prefix of the trimmed string, NaN (`none`) if there is none;
`parseFloat` of a number is the number; of `undefined`, NaN. -/
def jsParseFloat : Option JsVal → Option Int
  | none => none
  | some (.num n) => some n
  | some (.str s) =>
    match s.trim.toList with
    | '-' :: rest =>
      (parseDigits (leadingDigits rest)).map (fun n => -(n : Int))
    | l => (parseDigits (leadingDigits l)).map (fun n => (n : Int))

/-- JS relational `a > b`: two strings compare lexicographically, any
other pair compares after `Number` coercion, and any comparison with
NaN (including `undefined`) is false. -/
def jsGT (a b : Option JsVal) : Bool :=
  match a, b with
  | some (.str x), some (.str y) => decide (y < x)
  | _, _ =>
    match jsNumber a, jsNumber b with
    | some x, some y => decide (y < x)
    | _, _ => false

/-- JS relational `a < b` (same coercion rules as `jsGT`). -/
def jsLT (a b : Option JsVal) : Bool :=
  match a, b with
  | some (.str x), some (.str y) => decide (x < y)
  | _, _ =>
    match jsNumber a, jsNumber b with
    | some x, some y => decide (x < y)
    | _, _ => false

/-- JS `s.includes(sub)`: substring containment. -/
def strIncludes (s sub : String) : Bool :=
  decide (sub.toList <:+: s.toList)

/-! ## The `dataTable` component (`src/unnamed/part_000`) -/

/-- The `config` object of `dataTable` (the fields the embedded
operations consult). -/
structure TableConfig where
  apiUrl : String
  serverSide : Bool
deriving DecidableEq, Repr

/-- The mutable state of a `dataTable` instance. -/
structure TableState where
  data : List Rec
  filteredData : List Rec
  loading : Bool
  error : Option String
  currentPage : Nat
  pageSize : Nat
  totalPages : Nat
  totalRecords : Nat
  sortField : Option String
  sortDirection : String
  search : String
  filters : List (String × String)
  config : TableConfig
deriving DecidableEq, Repr

/-- `applyFilters()`: starting from `data`, keep (when `search` is
nonempty) the records some field value of which contains the lowercased
search term, then for each filter entry with a truthy value keep the
records whose field contains the filter value (all matches
case-insensitive); store the result and its length. -/
def applyFilters (st : TableState) : TableState :=
  let f0 := st.data
  let f1 :=
    if st.search ≠ "" then
      f0.filter (fun item =>
        (item.map Prod.snd).any (fun v =>
          strIncludes v.toStr.toLower st.search.toLower))
    else f0
  let f2 := st.filters.foldl
    (fun acc kv =>
      if kv.2 ≠ "" then
        acc.filter (fun item =>
          strIncludes (jsValToString (rlookup item kv.1)).toLower
            kv.2.toLower)
      else acc) f1
  { st with filteredData := f2, totalRecords := f2.length }

/-- `calculatePagination()`: `totalPages = Math.ceil(totalRecords /
pageSize)`; for naturals with a positive page size this is
`(totalRecords + pageSize - 1) / pageSize`. -/
def calculatePagination (st : TableState) : TableState :=
  { st with totalPages := (st.totalRecords + st.pageSize - 1) / st.pageSize }

/-- A decoded JSON response: an array of records, or an object carrying
a `data` array and an optional `total` (the well-formed shapes the
component consumes). -/
inductive Json where
  | arr (rows : List Rec)
  | obj (rows : List Rec) (total : Option Nat)
deriving DecidableEq, Repr

/-- `result.data || []`: an array has no `data` property. -/
def Json.dataField : Json → List Rec
  | .arr _ => []
  | .obj rows _ => rows

/-- `result.total || 0`. -/
def Json.totalField : Json → Nat
  | .arr _ => 0
  | .obj _ t => t.getD 0

/-- `result.data || result || []`: the `data` array when the response
is an object, the response itself when it is an array. -/
def Json.clientRows : Json → List Rec
  | .arr rows => rows
  | .obj rows _ => rows

/-- `loadData(params)`: set `loading`, clear `error`; on a fetch/decode
failure (`res = none`) set the error message (the `finally` clause
clears `loading`); on success replace the held set (per mode) and
recompute pagination. -/
def loadData (st : TableState) (res : Option Json) : TableState :=
  let st1 := { st with loading := true, error := none }
  match res with
  | none => { st1 with error := some "Failed to load data", loading := false }
  | some j =>
    let st2 :=
      if st1.config.serverSide then
        { st1 with
          data := j.dataField
          totalRecords := j.totalField
          filteredData := j.dataField }
      else
        applyFilters { st1 with data := j.clientRows }
    let st3 := calculatePagination st2
    { st3 with loading := false }

/-- The comparator passed to `filteredData.sort` in `sort(field)`:
when neither value `isNaN`, both are `parseFloat`ed; then `asc` returns
`valueA > valueB ? 1 : -1` and `desc` returns `valueA < valueB ? 1 : -1`. -/
def sortCompare (field dir : String) (a b : Rec) : Int :=
  let vA0 := rlookup a field
  let vB0 := rlookup b field
  let p :=
    if !jsIsNaN vA0 && !jsIsNaN vB0 then
      ((jsParseFloat vA0).map JsVal.num, (jsParseFloat vB0).map JsVal.num)
    else (vA0, vB0)
  if dir = "asc" then (if jsGT p.1 p.2 then 1 else -1)
  else (if jsLT p.1 p.2 then 1 else -1)

/-- Insert `x` into `l` before the first element `y` with `le x y`. -/
def insertBy (le : α → α → Bool) (x : α) : List α → List α
  | [] => [x]
  | y :: ys => if le x y then x :: y :: ys else y :: insertBy le x ys

/-- Comparison sort (insertion sort), modelling
`Array.prototype.sort(cmp)` where record `a` precedes `b` when
`cmp(a, b) ≤ 0`. -/
def sortBy (le : α → α → Bool) (l : List α) : List α :=
  l.foldr (insertBy le) []

/-- `sort(field)`: toggle the direction when `field` is already the
sort field, else select `field` ascending; then reload (server-side
mode, with decoded outcome `res`) or sort `filteredData` in place with
the comparator. -/
def sort (st : TableState) (field : String) (res : Option Json) : TableState :=
  let st1 :=
    if st.sortField = some field then
      { st with
        sortDirection := if st.sortDirection = "asc" then "desc" else "asc" }
    else
      { st with sortField := some field, sortDirection := "asc" }
  if st1.config.serverSide then
    loadData st1 res
  else
    { st1 with
      filteredData :=
        sortBy (fun a b => sortCompare field st1.sortDirection a b ≤ 0)
          st1.filteredData }

/-- `goToPage(page)`: only a page in `[1, totalPages]` is taken; in
server-side mode taking a page triggers a reload (decoded outcome
`res`). -/
def goToPage (st : TableState) (page : Nat) (res : Option Json) : TableState :=
  if 1 ≤ page ∧ page ≤ st.totalPages then
    let st1 := { st with currentPage := page }
    if st1.config.serverSide then loadData st1 res else st1
  else st

/-- `performSearch()`: server-side mode resets to page 1 and reloads;
client-side mode re-filters, resets to page 1 and recomputes
pagination. -/
def performSearch (st : TableState) (res : Option Json) : TableState :=
  if st.config.serverSide then
    loadData { st with currentPage := 1 } res
  else
    let st1 := applyFilters st
    calculatePagination { st1 with currentPage := 1 }

/-! ## Cascading selectors (`car-price-estimator.js`) -/

/-- Content of a `<select>`: a single placeholder option, or a
placeholder option followed by option elements. -/
inductive SelContent where
  | holder (text : String)
  | options (ph : String) (opts : List String)
deriving DecidableEq, Repr

/-- State of one `<select>` element: its current `value` (`""` while
the placeholder is selected), its option content and its `disabled`
flag. -/
structure Sel where
  value : String
  content : SelContent
  disabled : Bool
deriving DecidableEq, Repr

/-- The five levels of the cascade. -/
inductive Level where
  | category
  | brand
  | model
  | variant
  | year
deriving DecidableEq, Repr

/-- The selects of the estimator page. -/
structure CascadeState where
  category : Sel
  brand : Sel
  model : Sel
  variant : Sel
  year : Sel
deriving DecidableEq, Repr

def getSel (st : CascadeState) : Level → Sel
  | .category => st.category
  | .brand => st.brand
  | .model => st.model
  | .variant => st.variant
  | .year => st.year

def setSel (st : CascadeState) : Level → Sel → CascadeState
  | .category, s => { st with category := s }
  | .brand, s => { st with brand := s }
  | .model, s => { st with model := s }
  | .variant, s => { st with variant := s }
  | .year, s => { st with year := s }

/-- `getPlaceholderText(selectId)` of the estimator (the category
select is not in the map, so it falls back to the default). -/
def getPlaceholderText : Level → String
  | .brand => "Pilih Brand"
  | .model => "Pilih Model"
  | .variant => "Pilih Variant"
  | .year => "Pilih Tahun"
  | .category => "Pilih"

/-- The state `resetSelects` writes into one select: placeholder-only
content, no value, disabled. -/
def resetSel (l : Level) : Sel :=
  { value := "", content := .holder (getPlaceholderText l), disabled := true }

/-- `resetSelects(selectIds)` of the estimator. -/
def resetSelects (st : CascadeState) (ls : List Level) : CascadeState :=
  ls.foldl (fun s l => setSel s l (resetSel l)) st

/-- `showLoading(selectElement)`. -/
def loadingSel : Sel :=
  { value := "", content := .holder "Loading...", disabled := true }

/-- A freshly populated select: placeholder plus fetched options,
placeholder selected, enabled. -/
def populatedSel (ph : String) (opts : List String) : Sel :=
  { value := "", content := .options ph opts, disabled := false }

/-- Result of running one change handler: the selects afterwards, the
messages passed to `showError` (in order), and the number of network
fetches the handler issued. -/
structure HandlerResult where
  state : CascadeState
  errors : List String
  fetches : Nat
deriving DecidableEq, Repr

/-- The `categorySelect` change handler of the estimator.  `newVal` is
the select's value after the change; `fetch` is the decoded outcome of
the brands request (`none`: the fetch or decode threw). -/
def categoryChange (st : CascadeState) (newVal : String)
    (fetch : Option (List String)) : HandlerResult :=
  let st := setSel st .category { getSel st .category with value := newVal }
  if newVal ≠ "" then
    let st := setSel st .brand loadingSel
    match fetch with
    | some brands =>
      let st := setSel st .brand (populatedSel "Pilih Brand" brands)
      { state := resetSelects st [.model, .variant, .year]
        errors := [], fetches := 1 }
    | none =>
      { state := st
        errors := ["Gagal memuat brand. Silakan coba lagi."], fetches := 1 }
  else
    let st := setSel st .brand { getSel st .brand with disabled := true }
    { state := resetSelects st [.brand, .model, .variant, .year]
      errors := [], fetches := 0 }

/-- The `brandSelect` change handler of the estimator. -/
def brandChange (st : CascadeState) (newVal : String)
    (fetch : Option (List String)) : HandlerResult :=
  let st := setSel st .brand { getSel st .brand with value := newVal }
  if newVal ≠ "" then
    let st := setSel st .model loadingSel
    match fetch with
    | some models =>
      let st := setSel st .model (populatedSel "Pilih Model" models)
      { state := resetSelects st [.variant, .year]
        errors := [], fetches := 1 }
    | none =>
      { state := st
        errors := ["Gagal memuat model. Silakan coba lagi."], fetches := 1 }
  else
    { state := resetSelects st [.model, .variant, .year]
      errors := [], fetches := 0 }

/-- The `modelSelect` change handler of the estimator (it reads the
brand value from the DOM and guards on `brand && model`). -/
def modelChange (st : CascadeState) (newVal : String)
    (fetch : Option (List String)) : HandlerResult :=
  let st := setSel st .model { getSel st .model with value := newVal }
  if (getSel st .brand).value ≠ "" ∧ newVal ≠ "" then
    let st := setSel st .variant loadingSel
    match fetch with
    | some variants =>
      let st := setSel st .variant (populatedSel "Pilih Variant" variants)
      { state := resetSelects st [.year]
        errors := [], fetches := 1 }
    | none =>
      { state := st
        errors := ["Gagal memuat variant. Silakan coba lagi."], fetches := 1 }
  else
    { state := resetSelects st [.variant, .year]
      errors := [], fetches := 0 }

/-- The `variantSelect` change handler of the estimator (guards on
`brand && model && variant`). -/
def variantChange (st : CascadeState) (newVal : String)
    (fetch : Option (List String)) : HandlerResult :=
  let st := setSel st .variant { getSel st .variant with value := newVal }
  if (getSel st .brand).value ≠ "" ∧ (getSel st .model).value ≠ "" ∧
      newVal ≠ "" then
    let st := setSel st .year loadingSel
    match fetch with
    | some years =>
      let st := setSel st .year (populatedSel "Pilih Tahun" years)
      { state := st, errors := [], fetches := 1 }
    | none =>
      { state := st
        errors := ["Gagal memuat tahun. Silakan coba lagi."], fetches := 1 }
  else
    { state := resetSelects st [.year]
      errors := [], fetches := 0 }

/-- The `yearSelect` change handler (it only re-validates the form). -/
def yearChange (st : CascadeState) (newVal : String)
    (_fetch : Option (List String)) : HandlerResult :=
  { state := setSel st .year { getSel st .year with value := newVal }
    errors := [], fetches := 0 }

/-- Dispatch a change event at a level to its handler. -/
def handleChange : Level → CascadeState → String → Option (List String) →
    HandlerResult
  | .category => categoryChange
  | .brand => brandChange
  | .model => modelChange
  | .variant => variantChange
  | .year => yearChange

/-- The levels strictly below a level in the cascade. -/
def below : Level → List Level
  | .category => [.brand, .model, .variant, .year]
  | .brand => [.model, .variant, .year]
  | .model => [.variant, .year]
  | .variant => [.year]
  | .year => []

/-- The level a change handler populates (the next level down). -/
def nextLevel : Level → Option Level
  | .category => some .brand
  | .brand => some .model
  | .model => some .variant
  | .variant => some .year
  | .year => none

/-- The upstream values a handler reads from the DOM and guards on
(besides the changed select's own value). -/
def upGuard (l : Level) (st : CascadeState) : Prop :=
  match l with
  | .category => True
  | .brand => True
  | .model => (getSel st .brand).value ≠ ""
  | .variant =>
    (getSel st .brand).value ≠ "" ∧ (getSel st .model).value ≠ ""
  | .year => True

instance (l : Level) (st : CascadeState) : Decidable (upGuard l st) := by
  cases l <;> simp only [upGuard] <;> infer_instance

/-! ## Cascading selectors (`car-assessment.js`) -/

/-- `resetSelects` of the assessment page: placeholder
`Pilih ` + capitalised element id, value empty, disabled.  (The
assessment page's selects use the ids `category`/`brand`/`model`/
`variant`/`year`.) -/
def assessResetSel (l : Level) : Sel :=
  let ph := match l with
    | .category => "Pilih Category"
    | .brand => "Pilih Brand"
    | .model => "Pilih Model"
    | .variant => "Pilih Variant"
    | .year => "Pilih Year"
  { value := "", content := .holder ph, disabled := true }

def assessResetSelects (st : CascadeState) (ls : List Level) : CascadeState :=
  ls.foldl (fun s l => setSel s l (assessResetSel l)) st

/-- The `category` change handler of the assessment page: no loading
placeholder before the fetch, and its `catch` only logs to the console
(no `showError`), leaving every select as it was. -/
def assessCategoryChange (st : CascadeState) (newVal : String)
    (fetch : Option (List String)) : HandlerResult :=
  let st := setSel st .category { getSel st .category with value := newVal }
  if newVal ≠ "" then
    match fetch with
    | some brands =>
      let st := setSel st .brand (populatedSel "Pilih Brand" brands)
      { state := assessResetSelects st [.model, .variant, .year]
        errors := [], fetches := 1 }
    | none =>
      { state := st, errors := [], fetches := 1 }
  else
    let st := setSel st .brand { getSel st .brand with disabled := true }
    { state := assessResetSelects st [.brand, .model, .variant, .year]
      errors := [], fetches := 0 }

/-! ## The form validator (`car-price-estimator.js`) -/

/-- The form state `validateForm` reads from the DOM: the five select
values and the set of radio-group names that currently have a checked
input. -/
structure FormState where
  category : String
  brand : String
  model : String
  variant : String
  year : String
  checked : List String
deriving DecidableEq, Repr

/-- The `requiredRadioGroups` list of the estimator. -/
def requiredRadioGroups : List String :=
  ["exterior_condition", "interior_condition", "mechanical_condition",
   "accident_history", "service_history", "number_of_owners",
   "tires_brakes", "modifications", "market_demand", "brand_category",
   "price_tier"]

/-- `validateForm()`'s `isValid`: every select value truthy (a string
is truthy iff nonempty) and every required radio group checked. -/
def validateForm (s : FormState) : Bool :=
  let allRadiosSelected :=
    requiredRadioGroups.all (fun g => s.checked.contains g)
  s.category ≠ "" && s.brand ≠ "" && s.model ≠ "" && s.variant ≠ "" &&
    s.year ≠ "" && allRadiosSelected

/-- `submitBtn.disabled = !isValid`, as set by `validateForm()`. -/
def submitBtnDisabled (s : FormState) : Bool := !validateForm s

/-- `getReadableFieldName(fieldName)` of the estimator. -/
def getReadableFieldName (fieldName : String) : String :=
  match fieldName with
  | "exterior_condition" => "Exterior Condition"
  | "interior_condition" => "Interior Condition"
  | "mechanical_condition" => "Mechanical Condition"
  | "accident_history" => "Accident History"
  | "service_history" => "Service History"
  | "number_of_owners" => "Number of Owners"
  | "tires_brakes" => "Tires & Brakes"
  | "modifications" => "Modifications"
  | "market_demand" => "Market Demand"
  | "brand_category" => "Brand Category"
  | "price_tier" => "Price Tier"
  | other => other

/-- `validateFormBeforeSubmit()`: returns whether submission proceeds
and the message passed to `showError` when it does not.  An empty
select yields one fixed message; otherwise the first required radio
group without a checked input yields a message naming that group. -/
def validateFormBeforeSubmit (s : FormState) : Bool × Option String :=
  if s.category = "" || s.brand = "" || s.model = "" || s.variant = "" ||
      s.year = "" then
    (false, some "Silakan lengkapi semua spesifikasi kendaraan.")
  else
    match requiredRadioGroups.find? (fun g => !s.checked.contains g) with
    | some g =>
      (false, some ("Silakan pilih kondisi untuk " ++
        getReadableFieldName g ++ "."))
    | none => (true, none)

/-- A required form field, for stating which field a validation
message identifies: one of the cascade selects or a radio group. -/
inductive FormField where
  | category
  | brand
  | model
  | variant
  | year
  | radio (g : String)
deriving DecidableEq, Repr

/-- The first missing field in `validateFormBeforeSubmit`'s checking
order: the selects in cascade order, then the required radio groups in
list order. -/
def firstMissingField (s : FormState) : Option FormField :=
  if s.category = "" then some .category
  else if s.brand = "" then some .brand
  else if s.model = "" then some .model
  else if s.variant = "" then some .variant
  else if s.year = "" then some .year
  else
    (requiredRadioGroups.find? (fun g => !s.checked.contains g)).map .radio

/-! ## Helper lemmas -/

theorem loadData_preserves (st : TableState) (res : Option Json) :
    (loadData st res).currentPage = st.currentPage ∧
    (loadData st res).sortField = st.sortField ∧
    (loadData st res).sortDirection = st.sortDirection ∧
    (loadData st res).pageSize = st.pageSize ∧
    (loadData st res).config = st.config := by
  cases res with
  | none => exact ⟨rfl, rfl, rfl, rfl, rfl⟩
  | some j =>
    by_cases h : st.config.serverSide <;>
      simp [loadData, applyFilters, calculatePagination, h]

theorem le_ceil_mul (a b : Nat) (hb : 0 < b) :
    a ≤ ((a + b - 1) / b) * b := by
  have h1 : (a + b - 1) / b < (a + b - 1) / b + 1 := Nat.lt_succ_self _
  have h2 : a + b - 1 < ((a + b - 1) / b + 1) * b :=
    (Nat.div_lt_iff_lt_mul hb).mp h1
  rw [Nat.add_mul, Nat.one_mul] at h2
  generalize (a + b - 1) / b * b = m at *
  omega

theorem ceil_mul_lt (a b : Nat) (hb : 0 < b) :
    ((a + b - 1) / b) * b < a + b := by
  have h := Nat.div_mul_le_self (a + b - 1) b
  generalize (a + b - 1) / b * b = m at *
  omega

theorem ceil_le_of_le_mul (a b m : Nat) (hb : 0 < b) (h : a ≤ m * b) :
    (a + b - 1) / b ≤ m := by
  have h2 : a + b - 1 < (m + 1) * b := by
    rw [Nat.add_mul, Nat.one_mul]
    generalize m * b = k at *
    omega
  have h3 : (a + b - 1) / b < m + 1 := (Nat.div_lt_iff_lt_mul hb).mpr h2
  omega

theorem sort_sortField (st : TableState) (f : String) (r : Option Json) :
    (sort st f r).sortField = some f := by
  by_cases h : st.sortField = some f
  · simp only [sort, if_pos h]
    split
    · rw [(loadData_preserves _ _).2.1]; exact h
    · exact h
  · simp only [sort, if_neg h]
    split
    · rw [(loadData_preserves _ _).2.1]
    · rfl

theorem sort_sortDirection (st : TableState) (f : String) (r : Option Json) :
    (sort st f r).sortDirection =
      if st.sortField = some f then
        (if st.sortDirection = "asc" then "desc" else "asc")
      else "asc" := by
  by_cases h : st.sortField = some f
  · simp only [sort, if_pos h]
    split
    · rw [(loadData_preserves _ _).2.2.1]
    · rfl
  · simp only [sort, if_neg h]
    split
    · rw [(loadData_preserves _ _).2.2.1]
    · rfl

/-! ## Claim theorems -/

/-- C2: for every table state and every `loadData` call, a fetch or
JSON-decode failure sets the error flag and leaves `data`,
`filteredData` and `totalRecords` unchanged; a success clears the
error, replaces the held set (per mode) and recomputes `totalPages`
from the new record count; in both cases `loading` is false when
`loadData` completes. -/
theorem C2_loadData_error_handling (st : TableState) :
    ((loadData st none).error = some "Failed to load data" ∧
      (loadData st none).data = st.data ∧
      (loadData st none).filteredData = st.filteredData ∧
      (loadData st none).totalRecords = st.totalRecords ∧
      (loadData st none).loading = false) ∧
    (∀ j : Json,
      (loadData st (some j)).error = none ∧
      (loadData st (some j)).loading = false ∧
      (loadData st (some j)).data =
        (if st.config.serverSide then j.dataField else j.clientRows) ∧
      (loadData st (some j)).totalPages =
        ((loadData st (some j)).totalRecords + st.pageSize - 1) /
          st.pageSize) := by
  refine ⟨⟨rfl, rfl, rfl, rfl, rfl⟩, fun j => ?_⟩
  by_cases h : st.config.serverSide <;>
    simp [loadData, applyFilters, calculatePagination, h]

/-- C4: `totalPages` as computed by `calculatePagination` is the
ceiling of `totalRecords / pageSize` (the least `n` with
`totalRecords ≤ n * pageSize`, when the page size is positive), and
`goToPage p` leaves the state unchanged whenever `p < 1` or
`p > totalPages`. -/
theorem C4_pagination (st : TableState) :
    (0 < st.pageSize →
      st.totalRecords ≤ (calculatePagination st).totalPages * st.pageSize ∧
      ∀ m : Nat, st.totalRecords ≤ m * st.pageSize →
        (calculatePagination st).totalPages ≤ m) ∧
    (∀ (p : Nat) (res : Option Json), p < 1 ∨ st.totalPages < p →
      goToPage st p res = st) := by
  constructor
  · intro hb
    exact ⟨le_ceil_mul _ _ hb, fun m hm => ceil_le_of_le_mul _ _ m hb hm⟩
  · intro p res hp
    unfold goToPage
    rw [if_neg]
    omega

/-- A concrete table state with 47 records at page size 25 and the
`totalPages` value `calculatePagination` computes for it. -/
def tbl47 : TableState :=
  { data := [], filteredData := [], loading := false, error := none
    currentPage := 1, pageSize := 25, totalPages := 2
    totalRecords := 47, sortField := none, sortDirection := "asc"
    search := "", filters := []
    config := { apiUrl := "", serverSide := false } }

/-- C4 witness: page size 25 with 47 records: `totalPages` is `2`
(and `2` satisfies the ceiling characterisation), and `goToPage 3`
is a no-op in that state. -/
theorem C4_pagination_witness :
    (calculatePagination tbl47).totalPages = 2 ∧
    47 ≤ (calculatePagination tbl47).totalPages * 25 ∧
    goToPage tbl47 3 none = tbl47 :=
  ⟨by decide,
   ((C4_pagination tbl47).1 (by decide)).1,
   (C4_pagination tbl47).2 3 none (by decide)⟩

/-- C6: `sort(field)` on the current sort field toggles the direction
(two consecutive calls restore it), and on a new field selects that
field ascending. -/
theorem C6_sort_toggle (st : TableState) (f : String) (r1 r2 : Option Json) :
    (st.sortField = some f →
      st.sortDirection = "asc" ∨ st.sortDirection = "desc" →
      (sort st f r1).sortDirection ≠ st.sortDirection ∧
      (sort (sort st f r1) f r2).sortDirection = st.sortDirection) ∧
    (st.sortField ≠ some f →
      (sort st f r1).sortField = some f ∧
      (sort st f r1).sortDirection = "asc") := by
  constructor
  · intro hf hd
    have h1 := sort_sortDirection st f r1
    have h2 := sort_sortDirection (sort st f r1) f r2
    rw [sort_sortField st f r1, if_pos rfl] at h2
    rw [if_pos hf] at h1
    rcases hd with hd | hd
    · rw [hd] at h1 ⊢
      rw [if_pos rfl] at h1
      rw [h1] at h2
      rw [if_neg (by decide)] at h2
      exact ⟨by rw [h1]; decide, h2⟩
    · rw [hd] at h1 ⊢
      rw [if_neg (by decide)] at h1
      rw [h1] at h2
      rw [if_pos rfl] at h2
      exact ⟨by rw [h1]; decide, h2⟩
  · intro hf
    exact ⟨sort_sortField st f r1,
      by rw [sort_sortDirection st f r1, if_neg hf]⟩

/-- A concrete client-side table state currently sorted ascending on
field `a`. -/
def tblSorted : TableState :=
  { data := [], filteredData := [], loading := false, error := none
    currentPage := 1, pageSize := 25, totalPages := 1
    totalRecords := 0, sortField := some "a", sortDirection := "asc"
    search := "", filters := []
    config := { apiUrl := "", serverSide := false } }

/-- C6 witness: in a concrete client-side state sorted ascending on
field `a`, re-sorting on `a` flips the direction and sorting twice
restores it; sorting instead on the new field `b` selects `b`
ascending. -/
theorem C6_sort_toggle_witness :
    ((sort tblSorted "a" none).sortDirection ≠ "asc" ∧
      (sort (sort tblSorted "a" none) "a" none).sortDirection = "asc") ∧
    ((sort tblSorted "b" none).sortField = some "b" ∧
      (sort tblSorted "b" none).sortDirection = "asc") :=
  ⟨(C6_sort_toggle tblSorted "a" none none).1 rfl (Or.inl rfl),
   (C6_sort_toggle tblSorted "b" none none).2 (by decide)⟩

/-- C1: `validateForm` enables the submit button exactly when every
cascade select holds a nonempty value and every required radio group
has a checked input; it disables the button in every other state. -/
theorem C1_submit_enabled_iff (s : FormState) :
    submitBtnDisabled s = false ↔
      (s.category ≠ "" ∧ s.brand ≠ "" ∧ s.model ≠ "" ∧ s.variant ≠ "" ∧
        s.year ≠ "" ∧
        ∀ g ∈ requiredRadioGroups, s.checked.contains g = true) := by
  simp [submitBtnDisabled, validateForm, List.all_eq_true, and_assoc]

/-- A form state with every select chosen and every required radio
group checked. -/
def formAllSet : FormState :=
  { category := "SUV", brand := "Toyota", model := "Rush", variant := "G"
    year := "2020", checked := requiredRadioGroups }

/-- C1 witness: in the fully filled concrete form state the submit
button is enabled. -/
theorem C1_submit_enabled_iff_witness :
    submitBtnDisabled formAllSet = false :=
  (C1_submit_enabled_iff formAllSet).mpr (by decide)

/-- The spec's search predicate: an empty term matches everything,
otherwise some field value must contain the term case-insensitively. -/
def matchesSearch (search : String) (item : Rec) : Bool :=
  search = "" ||
    (item.map Prod.snd).any (fun v =>
      strIncludes v.toStr.toLower search.toLower)

/-- The spec's filter predicate: every filter entry with a nonempty
value must match its field case-insensitively. -/
def matchesFilters (filters : List (String × String)) (item : Rec) : Bool :=
  filters.all (fun kv =>
    kv.2 = "" ||
      strIncludes (jsValToString (rlookup item kv.1)).toLower kv.2.toLower)

theorem filters_foldl_eq_filter (fs : List (String × String)) (l : List Rec) :
    fs.foldl
      (fun acc kv =>
        if kv.2 ≠ "" then
          acc.filter (fun item =>
            strIncludes (jsValToString (rlookup item kv.1)).toLower
              kv.2.toLower)
        else acc) l
    = l.filter (fun item => matchesFilters fs item) := by
  induction fs generalizing l with
  | nil => simp [matchesFilters]
  | cons kv fs ih =>
    rw [List.foldl_cons, ih]
    by_cases h : kv.2 = ""
    · rw [if_neg (by simp [h])]
      apply List.filter_congr
      intro x _
      simp [matchesFilters, h]
    · rw [if_pos h, List.filter_filter]
      apply List.filter_congr
      intro x _
      simp [matchesFilters, h, Bool.and_comm]

/-- C5: in client-side mode `applyFilters()` keeps exactly the records
that match the search term in some field (case-insensitively) and
match every nonempty per-field filter; with an empty search term and
no filters every record is retained. -/
theorem C5_applyFilters (st : TableState) :
    (applyFilters st).filteredData =
      st.data.filter (fun item =>
        matchesSearch st.search item && matchesFilters st.filters item) ∧
    (st.search = "" ∧ st.filters = [] →
      (applyFilters st).filteredData = st.data) := by
  have key : (applyFilters st).filteredData =
      st.data.filter (fun item =>
        matchesSearch st.search item && matchesFilters st.filters item) := by
    simp only [applyFilters]
    rw [filters_foldl_eq_filter]
    by_cases hs : st.search = ""
    · rw [if_neg (by simp [hs])]
      apply List.filter_congr
      intro x _
      simp [matchesSearch, hs]
    · rw [if_pos hs, List.filter_filter]
      apply List.filter_congr
      intro x _
      simp [matchesSearch, hs, Bool.and_comm]
  refine ⟨key, fun h => ?_⟩
  rw [key, h.1]
  have : st.filters = [] := h.2
  rw [this]
  apply List.filter_eq_self.mpr
  intro x _
  simp [matchesSearch, matchesFilters]

/-- A client-side table state holding one record, with no search term
and no filters. -/
def tblPlain : TableState :=
  { data := [[("name", .str "Toyota")]], filteredData := []
    loading := false, error := none
    currentPage := 1, pageSize := 25, totalPages := 1
    totalRecords := 0, sortField := none, sortDirection := "asc"
    search := "", filters := []
    config := { apiUrl := "", serverSide := false } }

/-- C5 witness: with an empty search term and no filters,
`applyFilters` retains every record of the concrete state. -/
theorem C5_applyFilters_witness :
    (applyFilters tblPlain).filteredData = tblPlain.data :=
  (C5_applyFilters tblPlain).2 ⟨rfl, rfl⟩

/-- C10: `performSearch()` leaves `currentPage` equal to 1, in both
server-side and client-side modes. -/
theorem C10_performSearch_resets_page (st : TableState) (res : Option Json) :
    (performSearch st res).currentPage = 1 := by
  unfold performSearch
  split
  · rw [(loadData_preserves _ _).1]
  · rfl

/-- The estimator page after `loadCategories` succeeded: categories
populated, every dependent select reset. -/
def cascadeInit : CascadeState :=
  { category := populatedSel "Pilih Category" ["SUV", "MPV"]
    brand := resetSel .brand
    model := resetSel .model
    variant := resetSel .variant
    year := resetSel .year }

/-- C3 counterexample: on the estimator page, changing the category to
`"SUV"` with a successful brand fetch does *not* leave every level
below the category disabled — the brand select ends up enabled and
populated. -/
theorem C3_counterexample :
    ¬ (∀ l ∈ below .category,
        (getSel (handleChange .category cascadeInit "SUV"
          (some ["Toyota"])).state l).disabled = true) := by
  decide

/-- C3 (amended): changing level `N` to a non-empty value (with the
upstream values the handler reads present) and a successful fetch
resets every level strictly below `N + 1` to the disabled placeholder
state and leaves level `N + 1` populated and enabled with the fetched
options; changing level `N` to an empty value resets every level below
`N` to the disabled placeholder state. -/
theorem C3_cascade_reset_amended (l : Level) (st : CascadeState)
    (v : String) (opts : List String) :
    ((v ≠ "" ∧ upGuard l st) →
      (∀ m ∈ (nextLevel l).elim [] below,
        getSel (handleChange l st v (some opts)).state m = resetSel m) ∧
      (∀ m, nextLevel l = some m →
        getSel (handleChange l st v (some opts)).state m =
          populatedSel (getPlaceholderText m) opts)) ∧
    (v = "" →
      ∀ m ∈ below l,
        getSel (handleChange l st v (some opts)).state m = resetSel m) := by
  cases l
  case category =>
    constructor
    · rintro ⟨hv, -⟩
      simp only [handleChange, categoryChange, if_pos hv, nextLevel,
        Option.elim, below, List.forall_mem_cons]
      exact ⟨⟨rfl, rfl, rfl, List.forall_mem_nil _⟩,
        fun m hm => by cases hm; rfl⟩
    · intro hv
      simp only [handleChange, categoryChange, below, List.forall_mem_cons]
      split
      · rename_i hcond
        exact absurd hv hcond
      · exact ⟨rfl, rfl, rfl, rfl, List.forall_mem_nil _⟩
  case brand =>
    constructor
    · rintro ⟨hv, -⟩
      simp only [handleChange, brandChange, if_pos hv, nextLevel,
        Option.elim, below, List.forall_mem_cons]
      exact ⟨⟨rfl, rfl, List.forall_mem_nil _⟩,
        fun m hm => by cases hm; rfl⟩
    · intro hv
      simp only [handleChange, brandChange, below, List.forall_mem_cons]
      split
      · rename_i hcond
        exact absurd hv hcond
      · exact ⟨rfl, rfl, rfl, List.forall_mem_nil _⟩
  case model =>
    constructor
    · rintro ⟨hv, hg⟩
      simp only [handleChange, modelChange, nextLevel, Option.elim,
        below, List.forall_mem_cons]
      split
      · exact ⟨⟨rfl, List.forall_mem_nil _⟩, fun m hm => by cases hm; rfl⟩
      · rename_i hcond
        exact absurd (And.intro hg hv) hcond
    · intro hv
      simp only [handleChange, modelChange, below, List.forall_mem_cons]
      split
      · rename_i hcond
        exact absurd hv hcond.2
      · exact ⟨rfl, rfl, List.forall_mem_nil _⟩
  case variant =>
    constructor
    · rintro ⟨hv, hg⟩
      simp only [handleChange, variantChange, nextLevel, Option.elim,
        below, List.forall_mem_cons]
      split
      · exact ⟨List.forall_mem_nil _, fun m hm => by cases hm; rfl⟩
      · rename_i hcond
        exact absurd (And.intro hg.1 (And.intro hg.2 hv)) hcond
    · intro hv
      simp only [handleChange, variantChange, below, List.forall_mem_cons]
      split
      · rename_i hcond
        exact absurd hv hcond.2.2
      · exact ⟨rfl, List.forall_mem_nil _⟩
  case year =>
    constructor
    · rintro ⟨-, -⟩
      exact ⟨fun m hm => absurd hm (List.not_mem_nil m),
        fun m hm => by cases hm⟩
    · intro hv m hm
      exact absurd hm (List.not_mem_nil m)

/-- C3 witness: the successful category change from the concrete
initial state resets the model select and populates the brand select
(placeholder selected, enabled) with the fetched options. -/
theorem C3_cascade_reset_amended_witness :
    getSel (handleChange .category cascadeInit "SUV"
      (some ["Toyota"])).state .model = resetSel .model ∧
    getSel (handleChange .category cascadeInit "SUV"
      (some ["Toyota"])).state .brand =
      populatedSel (getPlaceholderText .brand) ["Toyota"] :=
  ⟨((C3_cascade_reset_amended .category cascadeInit "SUV" ["Toyota"]).1
      ⟨by decide, trivial⟩).1 .model (by decide),
   ((C3_cascade_reset_amended .category cascadeInit "SUV" ["Toyota"]).1
      ⟨by decide, trivial⟩).2 .brand rfl⟩

/-- The assessment page with a category chosen and its brands already
loaded (the brand select enabled and holding a value). -/
def assessStateX : CascadeState :=
  { category :=
      { value := "SUV", content := .options "Pilih Category" ["SUV", "MPV"]
        disabled := false }
    brand :=
      { value := "Toyota", content := .options "Pilih Brand" ["Toyota"]
        disabled := false }
    model := assessResetSel .model
    variant := assessResetSel .variant
    year := assessResetSel .year }

/-- C8 counterexample: on the assessment page, when the brand fetch
for a newly chosen category fails, the brand select is *not* left
disabled (it keeps its previous enabled state) and *no* user-facing
error notification is shown (the `catch` only logs). -/
theorem C8_counterexample :
    (assessCategoryChange assessStateX "MPV" none).state.brand.disabled
      = false ∧
    (assessCategoryChange assessStateX "MPV" none).errors = [] := by
  decide

/-- C8 (amended): on the estimator page, a failed option fetch for a
change at level `N` leaves level `N + 1` disabled with the loading
placeholder, shows an error notification, and issues no further fetch;
on the assessment page a failed brand fetch shows no notification and
leaves the brand select in its prior state (still only one fetch). -/
theorem C8_fetch_failure_amended (l : Level) (st : CascadeState)
    (v : String) :
    (∀ m, nextLevel l = some m → v ≠ "" → upGuard l st →
      getSel (handleChange l st v none).state m = loadingSel ∧
      (handleChange l st v none).errors ≠ [] ∧
      (handleChange l st v none).fetches = 1) ∧
    (v ≠ "" →
      (assessCategoryChange st v none).errors = [] ∧
      (assessCategoryChange st v none).state.brand = st.brand ∧
      (assessCategoryChange st v none).fetches = 1) := by
  constructor
  · intro m hm hv hg
    cases l
    case category =>
      injection hm with h
      subst h
      simp only [handleChange, categoryChange]
      split
      · refine ⟨rfl, ?_, rfl⟩
        simp
      · rename_i hcond
        exact absurd hv hcond
    case brand =>
      injection hm with h
      subst h
      simp only [handleChange, brandChange]
      split
      · refine ⟨rfl, ?_, rfl⟩
        simp
      · rename_i hcond
        exact absurd hv hcond
    case model =>
      injection hm with h
      subst h
      simp only [handleChange, modelChange]
      split
      · refine ⟨rfl, ?_, rfl⟩
        simp
      · rename_i hcond
        exact absurd (And.intro hg hv) hcond
    case variant =>
      injection hm with h
      subst h
      simp only [handleChange, variantChange]
      split
      · refine ⟨rfl, ?_, rfl⟩
        simp
      · rename_i hcond
        exact absurd (And.intro hg.1 (And.intro hg.2 hv)) hcond
    case year => exact Option.noConfusion hm
  · intro hv
    simp [assessCategoryChange, setSel, if_pos hv]

/-- C8 witness: concrete instances of both halves: the estimator's
category handler on a failed fetch leaves the brand select showing the
disabled loading placeholder, while the assessment page's handler
shows no error message. -/
theorem C8_fetch_failure_amended_witness :
    getSel (handleChange .category cascadeInit "SUV" none).state .brand
      = loadingSel ∧
    (assessCategoryChange assessStateX "SUV" none).errors = [] :=
  ⟨((C8_fetch_failure_amended .category cascadeInit "SUV").1 .brand rfl
      (by decide) trivial).1,
   ((C8_fetch_failure_amended .category assessStateX "SUV").2
      (by decide)).1⟩

/-- The record `{a: 2}`. -/
def recA2 : Rec := [("a", .num 2)]

/-- The record `{a: 10}`. -/
def recB10 : Rec := [("a", .num 10)]

/-- A client-side table holding `[{a:2},{a:10}]` in that order. -/
def tblC7 : TableState :=
  { data := [recA2, recB10], filteredData := [recA2, recB10]
    loading := false, error := none
    currentPage := 1, pageSize := 25, totalPages := 1
    totalRecords := 2, sortField := none, sortDirection := "asc"
    search := "", filters := []
    config := { apiUrl := "", serverSide := false } }

/-- The same table with the filtered view in the reverse order. -/
def tblC7rev : TableState :=
  { data := [recA2, recB10], filteredData := [recB10, recA2]
    loading := false, error := none
    currentPage := 1, pageSize := 25, totalPages := 1
    totalRecords := 2, sortField := none, sortDirection := "asc"
    search := "", filters := []
    config := { apiUrl := "", serverSide := false } }

/-- C7: the client-side sort comparator compares numerically when both
field values are numeric and compares the raw values (strings
lexicographically) otherwise; sorting `[{a:2},{a:10}]` ascending by `a`
yields `[{a:2},{a:10}]` — also from the reversed starting order — and
not the lexicographic order `[{a:10},{a:2}]`. -/
theorem C7_comparator :
    (∀ (field : String) (a b : Rec) (x y : Int),
      rlookup a field = some (.num x) → rlookup b field = some (.num y) →
      (sortCompare field "asc" a b ≤ 0 ↔ x ≤ y)) ∧
    (∀ (field : String) (a b : Rec) (sx sy : String),
      rlookup a field = some (.str sx) → rlookup b field = some (.str sy) →
      jsIsNaN (some (.str sx)) = true →
      (sortCompare field "asc" a b ≤ 0 ↔ ¬ sy < sx)) ∧
    (sort tblC7 "a" none).filteredData = [recA2, recB10] ∧
    (sort tblC7rev "a" none).filteredData = [recA2, recB10] := by
  refine ⟨?_, ?_, ?_, ?_⟩
  · intro field a b x y hx hy
    have hcmp : sortCompare field "asc" a b = if y < x then 1 else -1 := by
      simp [sortCompare, hx, hy, jsIsNaN, jsNumber, jsParseFloat, jsGT]
    rw [hcmp]
    by_cases h : y < x
    · rw [if_pos h]
      constructor
      · intro h2; omega
      · intro h2; omega
    · rw [if_neg h]
      constructor
      · intro _; omega
      · intro _; omega
  · intro field a b sx sy hx hy hnan
    have hcmp : sortCompare field "asc" a b = if sy < sx then 1 else -1 := by
      simp [sortCompare, hx, hy, hnan, jsGT]
    rw [hcmp]
    by_cases h : sy < sx
    · rw [if_pos h]
      constructor
      · intro h2; exact absurd h2 (by norm_num)
      · intro h2; exact absurd h h2
    · rw [if_neg h]
      constructor
      · intro _; exact h
      · intro _; norm_num
  · decide
  · decide

/-- C7 witness: the comparator puts `{a:2}` before `{a:10}` when
sorting ascending on `a` (numeric, not lexicographic, order). -/
theorem C7_comparator_witness :
    sortCompare "a" "asc" recA2 recB10 ≤ 0 :=
  (C7_comparator.1 "a" recA2 recB10 2 10 rfl rfl).mpr (by decide)

/-- A form state in which only the category select is unset. -/
def formMissCategory : FormState :=
  { category := "", brand := "Toyota", model := "Rush", variant := "G"
    year := "2020", checked := requiredRadioGroups }

/-- A form state in which only the year select is unset. -/
def formMissYear : FormState :=
  { category := "SUV", brand := "Toyota", model := "Rush", variant := "G"
    year := "", checked := requiredRadioGroups }

/-- C9 counterexample: two states whose first missing fields differ
(the category select versus the year select) receive the *identical*
generic error message, so the shown message does not identify the
first missing field. -/
theorem C9_counterexample :
    firstMissingField formMissCategory ≠ firstMissingField formMissYear ∧
    (validateFormBeforeSubmit formMissCategory).2 =
      (validateFormBeforeSubmit formMissYear).2 ∧
    (validateFormBeforeSubmit formMissCategory).1 = false := by
  decide

/-- C9 (amended): failing pre-submit validation blocks submission
(the result tracks `validateForm` exactly) and always shows a message;
when every select is set, the message identifies the first required
radio group without a checked input in checking order; when some
select is unset, the message is the fixed generic prompt, which does
not name the select. -/
theorem C9_presubmit_amended (s : FormState) :
    ((validateFormBeforeSubmit s).1 = validateForm s) ∧
    (validateForm s = false → (validateFormBeforeSubmit s).2 ≠ none) ∧
    ((s.category = "" ∨ s.brand = "" ∨ s.model = "" ∨ s.variant = "" ∨
        s.year = "") →
      (validateFormBeforeSubmit s).2 =
        some "Silakan lengkapi semua spesifikasi kendaraan.") ∧
    (∀ g, firstMissingField s = some (.radio g) →
      (validateFormBeforeSubmit s).2 =
        some ("Silakan pilih kondisi untuk " ++
          getReadableFieldName g ++ ".")) := by
  refine ⟨?_, ?_, ?_, ?_⟩
  · simp only [validateFormBeforeSubmit, validateForm]
    split
    · rename_i hc
      simp only [Bool.or_eq_true, decide_eq_true_eq] at hc
      rcases hc with (((h | h) | h) | h) | h <;> simp [h]
    · rename_i hc
      simp only [Bool.or_eq_true, decide_eq_true_eq] at hc
      push_neg at hc
      obtain ⟨⟨⟨⟨h1, h2⟩, h3⟩, h4⟩, h5⟩ := hc
      split
      · rename_i g hg
        have hmem := List.mem_of_find?_eq_some hg
        have hprop := List.find?_some hg
        simp only [Bool.not_eq_true'] at hprop
        have hall : requiredRadioGroups.all
            (fun g => s.checked.contains g) = false := by
          rw [List.all_eq_false]
          exact ⟨g, hmem, by simpa using hprop⟩
        rw [hall, Bool.and_false]
      · rename_i hg
        rw [List.find?_eq_none] at hg
        simp at hg
        have hall : requiredRadioGroups.all
            (fun g => s.checked.contains g) = true := by
          rw [List.all_eq_true]
          intro x hx
          simpa using hg x hx
        rw [hall, Bool.and_true]
        simp [h1, h2, h3, h4, h5]
  · intro hval
    simp only [validateFormBeforeSubmit]
    split
    · exact fun h => Option.noConfusion h
    · rename_i hc
      split
      · exact fun h => Option.noConfusion h
      · rename_i hg
        exfalso
        simp only [Bool.or_eq_true, decide_eq_true_eq] at hc
        push_neg at hc
        obtain ⟨⟨⟨⟨h1, h2⟩, h3⟩, h4⟩, h5⟩ := hc
        rw [List.find?_eq_none] at hg
        simp at hg
        simp [validateForm, h1, h2, h3, h4, h5] at hval
        obtain ⟨x, hx, hnx⟩ := hval
        exact hnx (hg x hx)
  · intro h
    simp only [validateFormBeforeSubmit]
    split
    · rfl
    · rename_i hcond
      refine absurd ?_ hcond
      simp only [Bool.or_eq_true, decide_eq_true_eq]
      tauto
  · intro g hg
    simp only [firstMissingField] at hg
    split at hg
    · exact FormField.noConfusion (Option.some.inj hg)
    · split at hg
      · exact FormField.noConfusion (Option.some.inj hg)
      · split at hg
        · exact FormField.noConfusion (Option.some.inj hg)
        · split at hg
          · exact FormField.noConfusion (Option.some.inj hg)
          · split at hg
            · exact FormField.noConfusion (Option.some.inj hg)
            · rename_i h1 h2 h3 h4 h5
              rw [Option.map_eq_some'] at hg
              obtain ⟨g', hfind, hg'⟩ := hg
              have hgg : g' = g := by
                injection hg'
              subst hgg
              simp only [validateFormBeforeSubmit]
              split
              · rename_i hcond
                exact absurd hcond (by simp [h1, h2, h3, h4, h5])
              · split
                · rename_i g2 hfind2
                  rw [hfind2] at hfind
                  injection hfind with hf
                  rw [hf]
                · rename_i hfind2
                  rw [hfind2] at hfind
                  exact Option.noConfusion hfind

/-- A form state with every select set and every required radio group
checked except `interior_condition` onwards. -/
def formMissRadio : FormState :=
  { category := "SUV", brand := "Toyota", model := "Rush", variant := "G"
    year := "2020", checked := ["exterior_condition"] }

/-- C9 witness: with only the radio groups from `interior_condition`
on unchecked, the shown message names Interior Condition, the first
missing group in checking order; and with the category unset the shown
message is the generic prompt. -/
theorem C9_presubmit_amended_witness :
    (validateFormBeforeSubmit formMissRadio).2 =
      some "Silakan pilih kondisi untuk Interior Condition." ∧
    (validateFormBeforeSubmit formMissCategory).2 =
      some "Silakan lengkapi semua spesifikasi kendaraan." :=
  ⟨(C9_presubmit_amended formMissRadio).2.2.2 "interior_condition"
      (by decide),
   (C9_presubmit_amended formMissCategory).2.2.1 (Or.inl rfl)⟩

end CarMarket
